import Mathlib

/-!
A shallow embedding of the cursor-confinement utility `SwimMouseCursor.cpp`
(together with `VirtualKeyParser.h`).  The Win32 environment that the
program queries (window validity, visibility, geometry, the foreground
window, hit-testing, pointer capture, process names, window titles) is
modelled as a record of pure functions `Env`; every source function of the
program becomes a Lean function reading from that record.  Machine `int`
arithmetic is modelled on `Int` with `Int.tdiv` for C++'s
truncating division; fallible Win32 calls return `Option`.
-/

/-- A Win32 `RECT`: screen coordinates, `right`/`bottom` exclusive. -/
structure Rect where
  left : Int
  top : Int
  right : Int
  bottom : Int
  deriving DecidableEq

/-- Window handles (`HWND`) are modelled as naturals; `0` is the null handle. -/
abbrev HWND := Nat

/-- A snapshot of the Win32 state visible to the program through the API
calls it makes.  Each field models one API query; `Option`/`0` encode the
failure modes of the corresponding call. -/
structure Env where
  /-- `IsWindow` -/
  isWindow : HWND → Bool
  /-- `IsWindowVisible` -/
  isWindowVisible : HWND → Bool
  /-- `IsIconic` (minimized) -/
  isIconic : HWND → Bool
  /-- `GetForegroundWindow` (`0` = no foreground window) -/
  foreground : HWND
  /-- `GetWindowRect` (`none` = call failed) -/
  windowRect : HWND → Option Rect
  /-- `GetClientRect` (`none` = call failed) -/
  clientRect : HWND → Option Rect
  /-- `ClientToScreen` on one point (`none` = call failed) -/
  clientToScreen : HWND → Int × Int → Option (Int × Int)
  /-- the process id written by `GetWindowThreadProcessId` (`0` = failure) -/
  pidOf : HWND → Nat
  /-- the thread id returned by `GetWindowThreadProcessId` -/
  threadOf : HWND → Nat
  /-- `OpenProcess` + `QueryFullProcessImageNameW` combined
      (`none` = either call failed) -/
  procImagePath : Nat → Option String
  /-- the window title read by `GetWindowTextW` (before truncation) -/
  title : HWND → String
  /-- `GetGUIThreadInfo` (`none` = call failed; otherwise `hwndActive`,
      `0` = null) -/
  guiInfo : Nat → Option HWND
  /-- `GetAncestor _ GA_ROOT` -/
  rootOf : HWND → HWND
  /-- `WindowFromPoint` (`0` = no window at that point) -/
  windowFromPoint : Int × Int → HWND
  /-- `GetCapture` (`0` = no capture) -/
  capture : HWND

/-- `TARGET_EXE` (SwimMouseCursor.cpp line 25). -/
def TARGET_EXE : String := "Minecraft.Windows.exe"

/-- `PathFindFileNameW`: the path component after the last backslash. -/
def pathFindFileName (path : String) : String :=
  String.mk ((path.toList.reverse.takeWhile (fun c => c ≠ '\\')).reverse)

/-- `_wcsicmp(a, b) == 0`: case-insensitive string equality (`towlower`
applied to each character before comparison). -/
def wcsicmpEq (a b : String) : Bool :=
  a.toList.map Char.toLower == b.toList.map Char.toLower

/-- Does `needle` occur at the start of `hay`? (helper for `wcsstr`) -/
def charsStartWith : List Char → List Char → Bool
  | _, [] => true
  | [], _ :: _ => false
  | a :: hs, b :: ns => a == b && charsStartWith hs ns

/-- `wcsstr(hay, needle) != nullptr`: does `needle` occur in `hay`? -/
def strContainsSub (hay needle : String) : Bool :=
  go hay.toList needle.toList
where
  go : List Char → List Char → Bool
    | hs, ns =>
      if charsStartWith hs ns then true
      else match hs with
        | [] => false
        | _ :: hs' => go hs' ns

/-- `GetProcessExeName` (lines 54–70): resolve the process image path and
keep only its file name; every failure mode yields the empty string. -/
def GetProcessExeName (env : Env) (pid : Nat) : String :=
  if pid = 0 then ""
  else
    match env.procImagePath pid with
    | none => ""
    | some path => pathFindFileName path

/-- The title buffer read by `GetWindowTextW(hwnd, title, 511)`
(line 86): at most 510 characters of the real title. -/
def readTitle (env : Env) (hwnd : HWND) : String :=
  String.mk ((env.title hwnd).toList.take 510)

/-- `IsMinecraftWindow` (lines 72–88): true when the owning process's
executable name equals `TARGET_EXE` case-insensitively, otherwise when the
window title contains `"Minecraft"`. -/
def IsMinecraftWindow (env : Env) (hwnd : HWND) : Bool :=
  if hwnd == 0 || !env.isWindow hwnd then false
  else
    let exe := GetProcessExeName env (env.pidOf hwnd)
    if exe != "" && wcsicmpEq exe TARGET_EXE then true
    else strContainsSub (readTitle env hwnd) "Minecraft"

/-- The values taken by a loop `for (v = lo; v < hi; v += stride)`.
Fuel-based so that it computes in the kernel; `(hi - lo).toNat` units of
fuel suffice because the program only enters the loop with `stride ≥ 5`
(a window wider/taller than 20 px has `(len)/4 ≥ 5`), and with a positive
stride the loop runs at most `hi - lo` times.  The `stride ≤ 0` guard is
unreachable from the program's call sites for the same reason. -/
def sampleAxisAux : Nat → Int → Int → Int → List Int
  | 0, _, _, _ => []
  | fuel + 1, lo, hi, stride =>
    if stride ≤ 0 || hi ≤ lo then []
    else lo :: sampleAxisAux fuel (lo + stride) hi stride

/-- The sample abscissas/ordinates of one axis of the sampling loops
(lines 134–136). -/
def sampleAxis (lo hi stride : Int) : List Int :=
  sampleAxisAux (hi - lo).toNat lo hi stride

/-- The x coordinates sampled by the outer loop (line 134):
`for (x = left+10; x < right-10; x += (right-left)/4)`. -/
def sampleXs (wr : Rect) : List Int :=
  sampleAxis (wr.left + 10) (wr.right - 10) (Int.tdiv (wr.right - wr.left) 4)

/-- The y coordinates sampled by the inner loop (line 136):
`for (y = top+10; y < bottom-10; y += (bottom-top)/4)`. -/
def sampleYs (wr : Rect) : List Int :=
  sampleAxis (wr.top + 10) (wr.bottom - 10) (Int.tdiv (wr.bottom - wr.top) 4)

/-- All interior sample points visited by the nested loops
(lines 134–151), in loop order. -/
def samplePoints (wr : Rect) : List (Int × Int) :=
  (sampleXs wr).flatMap (fun x => (sampleYs wr).map (fun y => (x, y)))

/-- One sample passes (lines 139–149) when `WindowFromPoint` finds a
window whose root ancestor is the target's root ancestor. -/
def sampleHits (env : Env) (hwnd : HWND) (p : Int × Int) : Bool :=
  let windowAtPoint := env.windowFromPoint p
  if windowAtPoint != 0 then
    env.rootOf windowAtPoint == env.rootOf hwnd
  else false

/-- `passedChecks` of the sampling loops (lines 131–151). -/
def passedChecks (env : Env) (hwnd : HWND) (wr : Rect) : Nat :=
  (samplePoints wr).countP (sampleHits env hwnd)

/-- The GUI-thread-info rejection (lines 113–127): the thread reports an
active window, it is not the target, and its root differs from the
target's root. -/
def guiActiveMismatch (env : Env) (hwnd : HWND) : Bool :=
  match env.guiInfo (env.threadOf hwnd) with
  | none => false
  | some active =>
    active != 0 && active != hwnd && env.rootOf active != env.rootOf hwnd

/-- The pointer-capture rejection (lines 157–165): some window holds the
capture, it is not the target, and its root differs from the target's
root. -/
def captureMismatch (env : Env) (hwnd : HWND) : Bool :=
  env.capture != 0 && env.capture != hwnd &&
    env.rootOf env.capture != env.rootOf hwnd

/-- `IsWindowActuallyVisibleAndTopmost` (lines 90–168). -/
def IsWindowActuallyVisibleAndTopmost (env : Env) (hwnd : HWND) : Bool :=
  if hwnd == 0 || !env.isWindow hwnd || !env.isWindowVisible hwnd then false
  else if env.isIconic hwnd then false
  else if env.foreground != hwnd then false
  else
    match env.windowRect hwnd with
    | none => false
    | some windowRect =>
      if windowRect.right ≤ windowRect.left ||
          windowRect.bottom ≤ windowRect.top then false
      else if guiActiveMismatch env hwnd then false
      else
        let numChecks := (samplePoints windowRect).length
        let passed := passedChecks env hwnd windowRect
        if numChecks > 0 && passed < numChecks * 3 / 4 then false
        else if captureMismatch env hwnd then false
        else true

/-- `GetWindowClipRect` (lines 170–198): `none` models returning `false`
(no rectangle produced); `some r` models returning `true` with `outClipRect = r`. -/
def GetWindowClipRect (env : Env) (hwnd : HWND) : Option Rect :=
  if !env.isWindow hwnd || !env.isWindowVisible hwnd then none
  else
    match env.windowRect hwnd with
    | none => none
    | some wr =>
      match env.clientRect hwnd with
      | some clientRect =>
        match env.clientToScreen hwnd (clientRect.left, clientRect.top) with
        | some topLeft =>
          match env.clientToScreen hwnd (clientRect.right, clientRect.bottom) with
          | some bottomRight =>
            some ⟨topLeft.1, topLeft.2, bottomRight.1, bottomRight.2⟩
          | none => some wr
        | none => some wr
      | none => some wr

/-- `RecenterCursor` (lines 200–209): the `SetCursorPos` argument, or
`none` when `GetWindowRect` fails and no call is made. -/
def RecenterCursor (env : Env) (hwnd : HWND) : Option (Int × Int) :=
  match env.windowRect hwnd with
  | none => none
  | some wr =>
    some (Int.tdiv (wr.left + wr.right) 2, Int.tdiv (wr.top + wr.bottom) 2)

/-- The per-tick confinement evaluation used by `wmain` (lines 420–423):
a region exactly when the target passes the visibility check and the clip
rectangle is available. -/
def Evaluate (env : Env) (hwnd : HWND) : Option Rect :=
  if IsWindowActuallyVisibleAndTopmost env hwnd then
    GetWindowClipRect env hwnd
  else none

/-- The log lines the program can emit (lines 369, 373, 405, 413,
427–428, 440). -/
inductive LogMsg where
  | clippingDisabled
  | clippingEnabledOn
  | minecraftActive
  | notActiveReleased
  | clippingTo (r : Rect)
  | notVisibleReleased
  deriving DecidableEq

/-- The observable side effects of a stretch of execution: the arguments
of every `ClipCursor` call in order (`none` = `ClipCursor(nullptr)`), and
the log lines emitted. -/
structure Trace where
  clipCalls : List (Option Rect)
  logs : List LogMsg
  deriving DecidableEq

/-- Trace concatenation. -/
def Trace.app (a b : Trace) : Trace :=
  ⟨a.clipCalls ++ b.clipCalls, a.logs ++ b.logs⟩

/-- The mutable state of `wmain`'s loop together with the process-wide
flags and the OS-level clip region: `lastActive`/`lastClipped` are the
locals of lines 348–349, `clippingEnabled`/`running` the atomics of lines
27–28, and `clipRegion` the pointer clip currently installed in the OS
(`none` = released). -/
structure LoopState where
  lastActive : HWND
  lastClipped : Bool
  clipRegion : Option Rect
  clippingEnabled : Bool
  running : Bool
  deriving DecidableEq

/-- The state at entry to the loop (lines 348–349 and 27–28). -/
def initialState : LoopState :=
  { lastActive := 0, lastClipped := false, clipRegion := none,
    clippingEnabled := true, running := true }

/-- One poll tick of `wmain` (lines 386–442): the body guarded by
`now - lastPoll >= POLL_MS`, with `env` the Win32 snapshot the tick's
queries observe.  Returns the updated state and the tick's trace. -/
def pollTick (env : Env) (st : LoopState) : LoopState × Trace :=
  let fg := env.foreground
  -- lines 389–398: if clipping is disabled, always release and `continue`
  if !st.clippingEnabled then
    if st.lastClipped then
      ({ st with lastClipped := false, clipRegion := none }, ⟨[none], []⟩)
    else (st, ⟨[], []⟩)
  else
    -- lines 400–417: foreground-change edge detection and logging
    let fcRes :=
      if fg != st.lastActive then
        if fg != 0 && IsMinecraftWindow env fg then
          ({ st with lastActive := fg },
           (⟨[], [LogMsg.minecraftActive]⟩ : Trace))
        else if st.lastClipped then
          ({ st with
               lastActive := fg
               lastClipped := false
               clipRegion := none },
           (⟨[none], [LogMsg.notActiveReleased]⟩ : Trace))
        else ({ st with lastActive := fg }, (⟨[], []⟩ : Trace))
      else (st, (⟨[], []⟩ : Trace))
    let st1 := fcRes.1
    let tr1 := fcRes.2
    -- lines 419–442: confinement decision
    if fg != 0 && IsMinecraftWindow env fg &&
        IsWindowActuallyVisibleAndTopmost env fg then
      match GetWindowClipRect env fg with
      | some clip =>
        let entryLogs := if !st1.lastClipped then [LogMsg.clippingTo clip] else []
        ({ st1 with lastClipped := true, clipRegion := some clip },
         tr1.app ⟨[some clip], entryLogs⟩)
      | none => (st1, tr1)
    else
      if st1.lastClipped then
        ({ st1 with lastClipped := false, clipRegion := none },
         tr1.app ⟨[none], [LogMsg.notVisibleReleased]⟩)
      else (st1, tr1)

/-- The `WM_HOTKEY` branch of the message pump (lines 359–376): toggle
`clippingEnabled`; when the new value is false, release immediately. -/
def handleHotkey (st : LoopState) : LoopState × Trace :=
  let enabled := !st.clippingEnabled
  if !enabled then
    ({ st with
         clippingEnabled := false
         lastClipped := false
         clipRegion := none },
     ⟨[none], [LogMsg.clippingDisabled]⟩)
  else
    ({ st with clippingEnabled := true }, ⟨[], [LogMsg.clippingEnabledOn]⟩)

/-- The console control events dispatched to `ConsoleCtrlHandler`
(lines 294–300), plus any other event kind. -/
inductive CtrlType where
  | ctrlC
  | ctrlBreak
  | ctrlClose
  | ctrlLogoff
  | ctrlShutdown
  | other
  deriving DecidableEq

/-- Which control events are termination signals handled by the switch of
lines 294–300. -/
def CtrlType.isTermination : CtrlType → Bool
  | .other => false
  | _ => true

/-- `ConsoleCtrlHandler` (lines 292–306): on any of the five termination
signals, clear the running flag and `ClipCursor(nullptr)`, reporting the
event handled; otherwise leave everything alone and report unhandled. -/
def ConsoleCtrlHandler (ctrlType : CtrlType) (st : LoopState) :
    LoopState × Bool :=
  match ctrlType with
  | .other => (st, false)
  | _ => ({ st with running := false, clipRegion := none }, true)

/-- The cleanup `wmain` runs after the loop exits (lines 449–457):
unconditionally `ClipCursor(nullptr)`. -/
def exitCleanup (st : LoopState) : LoopState :=
  { st with clipRegion := none }

/-- Run one poll tick per environment in `envs`, accumulating the trace. -/
def runTicksList (envs : List Env) (st : LoopState) : LoopState × Trace :=
  match envs with
  | [] => (st, ⟨[], []⟩)
  | env :: rest =>
    let r := pollTick env st
    let r' := runTicksList rest r.1
    (r'.1, r.2.app r'.2)

/-- Run `n` poll ticks against one fixed environment (no change in window
geometry, focus or visibility between ticks). -/
def runTicks (env : Env) (st : LoopState) (n : Nat) : LoopState × Trace :=
  runTicksList (List.replicate n env) st

/-- `HC_ACTION`. -/
def HC_ACTION : Int := 0

/-- `WM_KEYDOWN` (0x0100). -/
def WM_KEYDOWN : Nat := 256

/-- `WM_SYSKEYDOWN` (0x0104). -/
def WM_SYSKEYDOWN : Nat := 260

/-- `VK_ESCAPE` (0x1B). -/
def VK_ESCAPE : Nat := 27

/-- How a low-level hook callback disposes of the event it was handed:
`forwarded` models `return CallNextHookEx(...)` (the event continues down
the hook chain), `consumed` models returning a nonzero result without
forwarding. -/
inductive KeyEventDisposition where
  | forwarded
  | consumed
  deriving DecidableEq

/-- `LowLevelKeyboardProc` (lines 265–290): the first component is the
`SetCursorPos` target if the callback repositions the pointer (`none` =
no pointer movement), the second is the disposition of the key event;
the function's single return statement is `CallNextHookEx`. -/
def LowLevelKeyboardProc (env : Env) (recenterKey : Nat) (nCode : Int)
    (wParam : Nat) (vkCode : Nat) :
    Option (Int × Int) × KeyEventDisposition :=
  let action :=
    if nCode == HC_ACTION then
      if wParam == WM_KEYDOWN || wParam == WM_SYSKEYDOWN then
        let fg := env.foreground
        if fg != 0 && IsMinecraftWindow env fg &&
            IsWindowActuallyVisibleAndTopmost env fg then
          if vkCode == recenterKey || vkCode == VK_ESCAPE then
            RecenterCursor env fg
          else none
        else none
      else none
    else none
  (action, KeyEventDisposition.forwarded)

/-- The identity test as the spec's §4.1 describes it, for comparison with
`IsMinecraftWindow`: the title fallback is consulted only when the
process query fails, not when it succeeds with a non-matching name. -/
def IsTargetSpecDescribed (env : Env) (hwnd : HWND) : Bool :=
  if hwnd == 0 || !env.isWindow hwnd then false
  else
    let exe := GetProcessExeName env (env.pidOf hwnd)
    if exe != "" then wcsicmpEq exe TARGET_EXE
    else strContainsSub (readTitle env hwnd) "Minecraft"

/-- Does a log line announce entering the clipped state? -/
def LogMsg.isClipEnter : LogMsg → Bool
  | .clippingTo _ => true
  | _ => false

/-- A concrete Win32 snapshot: window `1` is the Minecraft window
(by process name), foreground, unminimized, visible, a 200×200 rectangle
at the origin, every interior sample point resolving to it, no foreign
capture. -/
def envTarget : Env :=
  { isWindow := fun h => h == 1
    isWindowVisible := fun h => h == 1
    isIconic := fun _ => false
    foreground := 1
    windowRect := fun h => if h == 1 then some ⟨0, 0, 200, 200⟩ else none
    clientRect := fun h => if h == 1 then some ⟨0, 0, 180, 160⟩ else none
    clientToScreen := fun h p => if h == 1 then some (p.1 + 8, p.2 + 30) else none
    pidOf := fun h => if h == 1 then 5 else 0
    threadOf := fun _ => 77
    procImagePath := fun pid =>
      if pid == 5 then some "C:\\Games\\Minecraft.Windows.exe" else none
    title := fun h => if h == 1 then "Minecraft" else ""
    guiInfo := fun t => if t == 77 then some 1 else none
    rootOf := fun h => h
    windowFromPoint := fun _ => 1
    capture := 0 }

/-- Like `envTarget`, but the foreground window is `2`, a Notepad window
that is not the target by either test. -/
def envAway : Env :=
  { envTarget with
      foreground := 2
      isWindow := fun h => h == 1 || h == 2
      isWindowVisible := fun h => h == 1 || h == 2
      windowRect := fun h => if h == 1 || h == 2 then some ⟨0, 0, 200, 200⟩ else none
      pidOf := fun h => if h == 1 then 5 else if h == 2 then 9 else 0
      procImagePath := fun pid =>
        if pid == 5 then some "C:\\Games\\Minecraft.Windows.exe"
        else if pid == 9 then some "C:\\Windows\\notepad.exe" else none
      title := fun h => if h == 1 then "Minecraft" else "Untitled - Notepad" }

/-- Like `envTarget`, but the target window is only 100×15 pixels. -/
def envSmall : Env :=
  { envTarget with
      windowRect := fun h => if h == 1 then some ⟨0, 0, 100, 15⟩ else none
      clientRect := fun h => if h == 1 then some ⟨0, 0, 96, 11⟩ else none
      windowFromPoint := fun _ => 0 }

/-- Like `envTarget`, but window `2` (a different window tree) holds the
pointer capture. -/
def envCaptureHeld : Env :=
  { envTarget with capture := 2 }

/-- Like `envTarget`, but the owning process resolves to Notepad while
the window title still contains "Minecraft": the process query succeeds
with a non-matching name. -/
def envWrongExeMinecraftTitle : Env :=
  { envTarget with
      pidOf := fun h => if h == 1 then 9 else 0
      procImagePath := fun pid =>
        if pid == 9 then some "C:\\Windows\\notepad.exe" else none
      title := fun h => if h == 1 then "Minecraft Wiki - Notepad" else "" }

/-- Like `envTarget`, but every sample point resolves to window `3`, an
overlay from a different window tree. -/
def envOverlayCovers : Env :=
  { envTarget with windowFromPoint := fun _ => 3 }

/-- Like `envTarget`, but `GetWindowRect` fails. -/
def envRectFail : Env :=
  { envTarget with windowRect := fun _ => none }

/-- Like `envTarget`, but `GetClientRect` fails. -/
def envClientFail : Env :=
  { envTarget with clientRect := fun _ => none }

/-- An axis loop whose entry test fails immediately collects nothing. -/
theorem sampleAxis_eq_nil_of_le {lo hi : Int} (stride : Int) (h : hi ≤ lo) :
    sampleAxis lo hi stride = [] := by
  unfold sampleAxis
  have hz : (hi - lo).toNat = 0 := Int.toNat_eq_zero.mpr (by omega)
  rw [hz]
  rfl

/-- A window at most 20 px wide or at most 20 px tall yields an empty
sample grid: the 10-px margins meet or cross. -/
theorem samplePoints_eq_nil_of_thin {wr : Rect}
    (h : wr.right - wr.left ≤ 20 ∨ wr.bottom - wr.top ≤ 20) :
    samplePoints wr = [] := by
  rcases h with h | h
  · have hx : sampleXs wr = [] := sampleAxis_eq_nil_of_le _ (by omega)
    simp [samplePoints, hx]
  · have hy : sampleYs wr = [] := sampleAxis_eq_nil_of_le _ (by omega)
    simp [samplePoints, hy]

/-- A valid, visible window with an available window rectangle always
gets some clip rectangle: every failure after `GetWindowRect` falls back
to the window rectangle. -/
theorem GetWindowClipRect_isSome (env : Env) (hwnd : HWND)
    (hw : env.isWindow hwnd = true) (hv : env.isWindowVisible hwnd = true)
    {wr : Rect} (hr : env.windowRect hwnd = some wr) :
    (GetWindowClipRect env hwnd).isSome = true := by
  cases hc : env.clientRect hwnd with
  | none => simp [GetWindowClipRect, hw, hv, hr, hc]
  | some cr =>
    cases htl : env.clientToScreen hwnd (cr.left, cr.top) with
    | none => simp [GetWindowClipRect, hw, hv, hr, hc, htl]
    | some tl =>
      cases hbr : env.clientToScreen hwnd (cr.right, cr.bottom) with
      | none => simp [GetWindowClipRect, hw, hv, hr, hc, htl, hbr]
      | some br => simp [GetWindowClipRect, hw, hv, hr, hc, htl, hbr]

/-- C8: for every invocation of the keyboard-hook callback — whatever the
hook code, message, key code, or whether a recenter was performed — the
callback forwards the event to the rest of the hook chain
(`CallNextHookEx`) and never reports it handled. -/
theorem C8_hook_always_forwards (env : Env) (recenterKey : Nat)
    (nCode : Int) (wParam vkCode : Nat) :
    (LowLevelKeyboardProc env recenterKey nCode wParam vkCode).2 =
      KeyEventDisposition.forwarded := rfl

/-- C6: for every loop state and every termination signal kind (Ctrl-C,
break, window close, logoff, shutdown), the console control handler
reports the event handled, clears the running flag, and removes the
OS-level pointer clip; the clip is still removed after `wmain`'s exit
cleanup. -/
theorem C6_termination_releases (st : LoopState) (k : CtrlType)
    (hk : k.isTermination = true) :
    (ConsoleCtrlHandler k st).2 = true ∧
    (ConsoleCtrlHandler k st).1.running = false ∧
    (ConsoleCtrlHandler k st).1.clipRegion = none ∧
    (exitCleanup (ConsoleCtrlHandler k st).1).clipRegion = none := by
  cases k <;>
    simp [CtrlType.isTermination, ConsoleCtrlHandler, exitCleanup] at hk ⊢

theorem C6_witness :
    CtrlType.ctrlShutdown.isTermination = true ∧
    ((ConsoleCtrlHandler CtrlType.ctrlShutdown
        { lastActive := 1, lastClipped := true,
          clipRegion := some ⟨8, 30, 188, 190⟩,
          clippingEnabled := true, running := true }).2 = true ∧
      (ConsoleCtrlHandler CtrlType.ctrlShutdown
        { lastActive := 1, lastClipped := true,
          clipRegion := some ⟨8, 30, 188, 190⟩,
          clippingEnabled := true, running := true }).1.running = false ∧
      (ConsoleCtrlHandler CtrlType.ctrlShutdown
        { lastActive := 1, lastClipped := true,
          clipRegion := some ⟨8, 30, 188, 190⟩,
          clippingEnabled := true, running := true }).1.clipRegion = none ∧
      (exitCleanup (ConsoleCtrlHandler CtrlType.ctrlShutdown
        { lastActive := 1, lastClipped := true,
          clipRegion := some ⟨8, 30, 188, 190⟩,
          clippingEnabled := true, running := true }).1).clipRegion = none) :=
  ⟨rfl, C6_termination_releases _ CtrlType.ctrlShutdown rfl⟩

/-- C9: a `GetWindowRect` failure yields no region at all, while a
failure of only the client-rect query or of either client-to-screen
conversion falls back to the full window rectangle. -/
theorem C9_geometry_failure_policy :
    (∀ env hwnd, env.windowRect hwnd = none →
      GetWindowClipRect env hwnd = none) ∧
    (∀ env hwnd wr, env.isWindow hwnd = true →
      env.isWindowVisible hwnd = true → env.windowRect hwnd = some wr →
      (env.clientRect hwnd = none ∨
        ∃ cr, env.clientRect hwnd = some cr ∧
          (env.clientToScreen hwnd (cr.left, cr.top) = none ∨
            ∃ tl, env.clientToScreen hwnd (cr.left, cr.top) = some tl ∧
              env.clientToScreen hwnd (cr.right, cr.bottom) = none)) →
      GetWindowClipRect env hwnd = some wr) := by
  constructor
  · intro env hwnd h
    unfold GetWindowClipRect
    rw [h]
    split <;> rfl
  · intro env hwnd wr hw hv hr hfail
    rcases hfail with hc | ⟨cr, hc, hcs⟩
    · simp [GetWindowClipRect, hw, hv, hr, hc]
    · rcases hcs with htl | ⟨tl, htl, hbr⟩
      · simp [GetWindowClipRect, hw, hv, hr, hc, htl]
      · simp [GetWindowClipRect, hw, hv, hr, hc, htl, hbr]

theorem C9_witness :
    GetWindowClipRect envRectFail 1 = none ∧
    GetWindowClipRect envClientFail 1 = some ⟨0, 0, 200, 200⟩ :=
  ⟨C9_geometry_failure_policy.1 envRectFail 1 rfl,
   C9_geometry_failure_policy.2 envClientFail 1 ⟨0, 0, 200, 200⟩ rfl rfl rfl
     (Or.inl rfl)⟩

/-- C7: on a key-down hook event carrying the configured recenter key or
the fixed Escape key while the foreground window is the target and passes
the visibility check, the callback moves the pointer to exactly the
truncating-integer-division center of the target's window rectangle; on
any event while the foreground window is not the target, it moves the
pointer nowhere. -/
theorem C7_recenter_center (env : Env) (recenterKey : Nat) (wr : Rect)
    (nCode : Int) (wParam vkCode : Nat) :
    (nCode = HC_ACTION → (wParam = WM_KEYDOWN ∨ wParam = WM_SYSKEYDOWN) →
      (vkCode = recenterKey ∨ vkCode = VK_ESCAPE) →
      env.foreground ≠ 0 →
      IsMinecraftWindow env env.foreground = true →
      IsWindowActuallyVisibleAndTopmost env env.foreground = true →
      env.windowRect env.foreground = some wr →
      (LowLevelKeyboardProc env recenterKey nCode wParam vkCode).1 =
        some (Int.tdiv (wr.left + wr.right) 2,
              Int.tdiv (wr.top + wr.bottom) 2)) ∧
    ((env.foreground = 0 ∨ IsMinecraftWindow env env.foreground = false) →
      (LowLevelKeyboardProc env recenterKey nCode wParam vkCode).1 = none) := by
  constructor
  · intro hn hdown hkey hfg hmc hvis hr
    subst hn
    rcases hdown with hd | hd <;> subst hd <;>
      rcases hkey with hk | hk <;> subst hk <;>
        simp [LowLevelKeyboardProc, RecenterCursor, hfg, hmc, hvis, hr]
  · intro hnt
    have hb : (env.foreground != 0 && IsMinecraftWindow env env.foreground &&
        IsWindowActuallyVisibleAndTopmost env env.foreground) = false := by
      rcases hnt with h | h <;> simp [h]
    simp only [LowLevelKeyboardProc, hb]
    split <;> [skip; rfl]
    split <;> [skip; rfl]
    simp

set_option maxRecDepth 8192 in
theorem C7_witness :
    (LowLevelKeyboardProc envTarget 69 0 256 69).1 = some (100, 100) ∧
    (LowLevelKeyboardProc envAway 69 0 256 69).1 = none :=
  ⟨(C7_recenter_center envTarget 69 ⟨0, 0, 200, 200⟩ 0 256 69).1 rfl
      (Or.inl rfl) (Or.inl rfl) (by decide) (by decide) (by decide) rfl,
   (C7_recenter_center envAway 69 ⟨0, 0, 200, 200⟩ 0 256 69).2
      (Or.inr (by decide))⟩

/-- C10: a foreground, visible, unminimized target window whose rectangle
is non-degenerate but at most 20 px wide or tall makes the interior
sampling loops collect zero points; the 75% requirement is then skipped
as vacuous (`numChecks > 0` fails), the visibility check returns true,
and a clip rectangle is still produced — confinement engages with no
sampling evidence at all. -/
theorem C10_thin_window_vacuous_sampling (env : Env) (hwnd : HWND)
    (wr : Rect) (h0 : hwnd ≠ 0) (hw : env.isWindow hwnd = true)
    (hv : env.isWindowVisible hwnd = true) (hic : env.isIconic hwnd = false)
    (hfg : env.foreground = hwnd) (hr : env.windowRect hwnd = some wr)
    (hnd1 : wr.left < wr.right) (hnd2 : wr.top < wr.bottom)
    (hthin : wr.right - wr.left ≤ 20 ∨ wr.bottom - wr.top ≤ 20)
    (hgui : guiActiveMismatch env hwnd = false)
    (hcap : captureMismatch env hwnd = false) :
    samplePoints wr = [] ∧
    IsWindowActuallyVisibleAndTopmost env hwnd = true ∧
    (GetWindowClipRect env hwnd).isSome = true := by
  have hpts : samplePoints wr = [] := samplePoints_eq_nil_of_thin hthin
  refine ⟨hpts, ?_, GetWindowClipRect_isSome env hwnd hw hv hr⟩
  simp [IsWindowActuallyVisibleAndTopmost, h0, hw, hv, hic, hfg, hr, hgui,
    hcap, hpts, not_le.mpr hnd1, not_le.mpr hnd2]

theorem C10_witness :
    samplePoints ⟨0, 0, 100, 15⟩ = [] ∧
    IsWindowActuallyVisibleAndTopmost envSmall 1 = true ∧
    (GetWindowClipRect envSmall 1).isSome = true :=
  C10_thin_window_vacuous_sampling envSmall 1 ⟨0, 0, 100, 15⟩ (by decide)
    (by decide) (by decide) (by decide) (by decide) (by decide) (by decide)
    (by decide) (Or.inr (by decide)) (by decide) (by decide)

/-- C1: on any poll tick whose foreground window is not identified as the
target (null, or failing both the process-name and the title test), the
state after the tick is released — `lastClipped` cleared and no OS-level
clip installed — whatever the prior state was, provided the OS clip
matched the prior `lastClipped` flag as the state-machine invariant
guarantees. -/
theorem C1_nontarget_tick_releases (env : Env) (st : LoopState)
    (hsync : st.lastClipped = false → st.clipRegion = none)
    (hnt : env.foreground = 0 ∨ IsMinecraftWindow env env.foreground = false) :
    (pollTick env st).1.lastClipped = false ∧
    (pollTick env st).1.clipRegion = none := by
  have hb : (env.foreground != 0 && IsMinecraftWindow env env.foreground)
      = false := by
    rcases hnt with h | h <;> simp [h]
  have hb3 : (env.foreground != 0 && IsMinecraftWindow env env.foreground &&
      IsWindowActuallyVisibleAndTopmost env env.foreground) = false := by
    simp [hb]
  cases hce : st.clippingEnabled <;> cases hlc : st.lastClipped
  · simp [pollTick, hce, hlc, hsync hlc]
  · simp [pollTick, hce, hlc]
  · cases hfg : env.foreground != st.lastActive <;>
      simp [pollTick, hce, hlc, hfg, hb, hb3, hsync hlc]
  · cases hfg : env.foreground != st.lastActive <;>
      simp [pollTick, hce, hlc, hfg, hb, hb3]

theorem C1_witness :
    (pollTick envAway
      { lastActive := 1, lastClipped := true,
        clipRegion := some ⟨8, 30, 188, 190⟩,
        clippingEnabled := true, running := true }).1.lastClipped = false ∧
    (pollTick envAway
      { lastActive := 1, lastClipped := true,
        clipRegion := some ⟨8, 30, 188, 190⟩,
        clippingEnabled := true, running := true }).1.clipRegion = none :=
  C1_nontarget_tick_releases envAway _ (fun h => Bool.noConfusion h)
    (Or.inr (by decide))

/-- With clipping disabled and nothing clipped, a poll tick does nothing:
the disabled branch releases only when `lastClipped` is set and then
`continue`s. -/
theorem pollTick_disabled_fix (env : Env) (st : LoopState)
    (hce : st.clippingEnabled = false) (hlc : st.lastClipped = false) :
    pollTick env st = (st, ⟨[], []⟩) := by
  simp [pollTick, hce, hlc]

/-- While clipping stays disabled and nothing is clipped, any run of poll
ticks leaves the state untouched and performs no OS calls or logging. -/
theorem runTicksList_disabled_fix (envs : List Env) (st : LoopState)
    (hce : st.clippingEnabled = false) (hlc : st.lastClipped = false) :
    runTicksList envs st = (st, ⟨[], []⟩) := by
  induction envs with
  | nil => rfl
  | cons e rest ih =>
    simp [runTicksList, pollTick_disabled_fix e st hce hlc, ih, Trace.app]

/-- C4: when the safety hotkey flips `ClippingEnabled` from true to
false, the handler itself already removes the OS clip and clears
`lastClipped` (it does not wait for the next tick), and every later poll
tick — against arbitrary, possibly target-visible environments — keeps
the state released while the flag stays false. -/
theorem C4_toggle_off_immediate_and_sticky (st : LoopState)
    (h : st.clippingEnabled = true) :
    (handleHotkey st).1.clipRegion = none ∧
    (handleHotkey st).1.lastClipped = false ∧
    (handleHotkey st).1.clippingEnabled = false ∧
    ∀ envs : List Env,
      (runTicksList envs (handleHotkey st).1).1.clipRegion = none ∧
      (runTicksList envs (handleHotkey st).1).1.lastClipped = false ∧
      (runTicksList envs (handleHotkey st).1).1.clippingEnabled = false := by
  have hh : (handleHotkey st).1 =
      { st with
          clippingEnabled := false
          lastClipped := false
          clipRegion := none } := by
    simp [handleHotkey, h]
  refine ⟨by rw [hh], by rw [hh], by rw [hh], ?_⟩
  intro envs
  rw [hh, runTicksList_disabled_fix envs _ rfl rfl]
  exact ⟨rfl, rfl, rfl⟩

theorem C4_witness :
    initialState.clippingEnabled = true ∧
    (runTicksList [envTarget] (handleHotkey initialState).1).1.clipRegion
      = none ∧
    (runTicksList [envTarget] (handleHotkey initialState).1).1.lastClipped
      = false ∧
    (runTicksList [envTarget]
      (handleHotkey initialState).1).1.clippingEnabled = false :=
  ⟨rfl, (C4_toggle_off_immediate_and_sticky initialState rfl).2.2.2 [envTarget]⟩

/-- On a tick whose environment confines (target foreground, visibility
check passing, clip rectangle available) with clipping enabled, the tick
calls `ClipCursor` with the rectangle exactly once and logs the entered
state only when the previous tick was not clipped. -/
theorem pollTick_confined (env : Env) (st : LoopState) (r : Rect)
    (hce : st.clippingEnabled = true)
    (hvis : (env.foreground != 0 && IsMinecraftWindow env env.foreground &&
      IsWindowActuallyVisibleAndTopmost env env.foreground) = true)
    (hclip : GetWindowClipRect env env.foreground = some r) :
    (pollTick env st).1 =
      { st with
          lastActive := env.foreground
          lastClipped := true
          clipRegion := some r } ∧
    (pollTick env st).2.clipCalls = [some r] ∧
    (pollTick env st).2.logs.countP LogMsg.isClipEnter =
      (if st.lastClipped then 0 else 1) := by
  have hsplit := hvis
  simp only [Bool.and_eq_true] at hsplit
  obtain ⟨⟨hfg0, hmc⟩, hv3⟩ := hsplit
  cases hfg : env.foreground != st.lastActive <;> cases hlc : st.lastClipped <;>
    simp_all [pollTick, Trace.app, LogMsg.isClipEnter]

/-- Starting already clipped, a run of confining ticks against an
unchanged environment re-applies the clip on every tick and never logs
the entered state again. -/
theorem runTicks_confined_steady (env : Env) (r : Rect)
    (hvis : (env.foreground != 0 && IsMinecraftWindow env env.foreground &&
      IsWindowActuallyVisibleAndTopmost env env.foreground) = true)
    (hclip : GetWindowClipRect env env.foreground = some r) (n : Nat) :
    ∀ st : LoopState, st.clippingEnabled = true → st.lastClipped = true →
      (runTicks env st n).2.clipCalls = List.replicate n (some r) ∧
      (runTicks env st n).2.logs.countP LogMsg.isClipEnter = 0 := by
  induction n with
  | zero => intro st _ _; exact ⟨rfl, rfl⟩
  | succ n ih =>
    intro st hce hlc
    obtain ⟨hst, hcalls, hlogs⟩ := pollTick_confined env st r hce hvis hclip
    have hnext := ih (pollTick env st).1 (by rw [hst]; exact hce)
      (by rw [hst])
    simp only [runTicks, List.replicate_succ, runTicksList, Trace.app] at *
    constructor
    · simp [hcalls, hnext.1]
    · simp [List.countP_append, hlogs, hlc, hnext.2]

set_option maxRecDepth 8192 in
/-- C5 counterexample: two consecutive poll ticks against one unchanged
environment (the target confined throughout) call the OS clip primitive
twice — `ClipCursor(&clip)` runs on every confined tick, not only on the
first — even though the entered-state log line appears only once.  This
refutes "the OS-level clip primitive is applied at most once". -/
theorem C5_counterexample :
    (runTicks envTarget initialState 2).2.clipCalls =
      [some ⟨8, 30, 188, 190⟩, some ⟨8, 30, 188, 190⟩] ∧
    ¬ ((runTicks envTarget initialState 2).2.clipCalls.countP
        (fun c => c.isSome) ≤ 1) ∧
    (runTicks envTarget initialState 2).2.logs.countP LogMsg.isClipEnter
      = 1 := by decide

/-- C5 amended: over any run of poll ticks with no change in geometry,
focus or visibility (one fixed environment, confining every tick, with
clipping enabled), the entered-state log line is emitted at most once,
while the OS clip primitive is re-applied exactly once per tick with the
unchanged rectangle (never released, never skipped). -/
theorem C5_amended_reapplies_but_logs_once (env : Env) (st : LoopState)
    (r : Rect) (n : Nat) (hce : st.clippingEnabled = true)
    (hvis : (env.foreground != 0 && IsMinecraftWindow env env.foreground &&
      IsWindowActuallyVisibleAndTopmost env env.foreground) = true)
    (hclip : GetWindowClipRect env env.foreground = some r) :
    (runTicks env st n).2.logs.countP LogMsg.isClipEnter ≤ 1 ∧
    (runTicks env st n).2.clipCalls = List.replicate n (some r) := by
  cases hlc : st.lastClipped
  case true =>
    obtain ⟨hcalls, hlogs⟩ :=
      runTicks_confined_steady env r hvis hclip n st hce hlc
    exact ⟨by simp [hlogs], hcalls⟩
  case false =>
    cases n with
    | zero => exact ⟨by simp [runTicks, runTicksList], rfl⟩
    | succ n =>
      obtain ⟨hst, hcalls, hlogs⟩ := pollTick_confined env st r hce hvis hclip
      obtain ⟨hcalls2, hlogs2⟩ := runTicks_confined_steady env r hvis hclip n
        (pollTick env st).1 (by rw [hst]; exact hce) (by rw [hst])
      simp only [runTicks, List.replicate_succ, runTicksList, Trace.app] at *
      constructor
      · simp [List.countP_append, hlogs, hlogs2, hlc]
      · simp [hcalls, hcalls2]

set_option maxRecDepth 8192 in
theorem C5_amended_witness :
    (runTicks envTarget initialState 2).2.logs.countP LogMsg.isClipEnter
      ≤ 1 ∧
    (runTicks envTarget initialState 2).2.clipCalls =
      List.replicate 2 (some ⟨8, 30, 188, 190⟩) :=
  C5_amended_reapplies_but_logs_once envTarget initialState
    ⟨8, 30, 188, 190⟩ 2 rfl (by decide) (by decide)

set_option maxRecDepth 8192 in
/-- C2 counterexample: a target window that is foreground, unminimized,
with a non-degenerate 200×200 rectangle, a full 4×4 sample grid passing
at 16/16 (≥ 75%), and an available client-area screen rectangle, is still
evaluated to no confinement region because a window from another tree
holds the pointer capture — a rejection the claim's conditions do not
cover.  So the claim's conditions do not suffice for `Confined`. -/
theorem C2_counterexample :
    IsMinecraftWindow envCaptureHeld 1 = true ∧
    envCaptureHeld.foreground = 1 ∧
    envCaptureHeld.isIconic 1 = false ∧
    envCaptureHeld.windowRect 1 = some ⟨0, 0, 200, 200⟩ ∧
    (samplePoints ⟨0, 0, 200, 200⟩).length = 16 ∧
    passedChecks envCaptureHeld 1 ⟨0, 0, 200, 200⟩ = 16 ∧
    GetWindowClipRect envCaptureHeld 1 = some ⟨8, 30, 188, 190⟩ ∧
    Evaluate envCaptureHeld 1 = none := by decide

/-- C2 amended: with the claim's conditions extended by the remaining
checks the code actually performs — window visible, GUI-thread active
window not in a foreign tree, no foreign pointer capture, and the
client-area conversion succeeding — a ≥ 75% sample ratio yields the
client-area screen rectangle; and a sample ratio below 75% on a full
grid always yields no region, with no extra conditions needed. -/
theorem C2_amended_policy :
    (∀ env (hwnd : HWND) (wr cr : Rect) (tl br : Int × Int),
      hwnd ≠ 0 → env.isWindow hwnd = true →
      env.isWindowVisible hwnd = true → env.isIconic hwnd = false →
      env.foreground = hwnd → env.windowRect hwnd = some wr →
      wr.left < wr.right → wr.top < wr.bottom →
      (samplePoints wr).length = 16 →
      3 * (samplePoints wr).length ≤ 4 * passedChecks env hwnd wr →
      guiActiveMismatch env hwnd = false →
      captureMismatch env hwnd = false →
      env.clientRect hwnd = some cr →
      env.clientToScreen hwnd (cr.left, cr.top) = some tl →
      env.clientToScreen hwnd (cr.right, cr.bottom) = some br →
      Evaluate env hwnd = some ⟨tl.1, tl.2, br.1, br.2⟩) ∧
    (∀ env (hwnd : HWND) (wr : Rect),
      env.windowRect hwnd = some wr →
      (samplePoints wr).length = 16 →
      4 * passedChecks env hwnd wr < 3 * (samplePoints wr).length →
      Evaluate env hwnd = none) := by
  constructor
  · intro env hwnd wr cr tl br h0 hw hv hic hfg hr hnd1 hnd2 hlen hpass
      hgui hcap hcr htl hbr
    have hp12 : ¬ passedChecks env hwnd wr <
        (samplePoints wr).length * 3 / 4 := by
      rw [hlen] at hpass ⊢
      omega
    have hvis : IsWindowActuallyVisibleAndTopmost env hwnd = true := by
      simp [IsWindowActuallyVisibleAndTopmost, h0, hw, hv, hic, hfg, hr,
        hgui, hcap, hp12, not_le.mpr hnd1, not_le.mpr hnd2]
    simp [Evaluate, hvis, GetWindowClipRect, hw, hv, hr, hcr, htl, hbr]
  · intro env hwnd wr hr hlen hlow
    by_cases hvis : IsWindowActuallyVisibleAndTopmost env hwnd = true
    · exfalso
      rw [hlen] at hlow
      unfold IsWindowActuallyVisibleAndTopmost at hvis
      rw [hr] at hvis
      simp only [] at hvis
      split_ifs at hvis with h1 h2 h3 h4 h5 h6 h7
      rw [hlen] at h6
      simp only [Bool.and_eq_true, decide_eq_true_eq, not_and, not_lt] at h6
      omega
    · simp only [Evaluate]
      rw [if_neg hvis]

set_option maxRecDepth 8192 in
theorem C2_amended_witness :
    Evaluate envTarget 1 = some ⟨8, 30, 188, 190⟩ ∧
    Evaluate envOverlayCovers 1 = none :=
  ⟨C2_amended_policy.1 envTarget 1 ⟨0, 0, 200, 200⟩ ⟨0, 0, 180, 160⟩
      (8, 30) (188, 190) (by decide) (by decide) (by decide) (by decide)
      (by decide) (by decide) (by decide) (by decide) (by decide)
      (by decide) (by decide) (by decide) (by decide) (by decide)
      (by decide),
   C2_amended_policy.2 envOverlayCovers 1 ⟨0, 0, 200, 200⟩ (by decide)
      (by decide) (by decide)⟩

set_option maxRecDepth 8192 in
/-- C3 counterexample: for a window whose process query succeeds and
yields the non-matching executable name `notepad.exe` while the title
contains "Minecraft", the code still consults the title and returns true,
whereas the claimed behaviour (title fallback only upon process-query
failure, `IsTargetSpecDescribed`) returns false.  The claimed "exactly
when" characterization is therefore false on this input. -/
theorem C3_counterexample :
    GetProcessExeName envWrongExeMinecraftTitle
        (envWrongExeMinecraftTitle.pidOf 1) = "notepad.exe" ∧
    wcsicmpEq "notepad.exe" TARGET_EXE = false ∧
    IsMinecraftWindow envWrongExeMinecraftTitle 1 = true ∧
    IsTargetSpecDescribed envWrongExeMinecraftTitle 1 = false := by decide

/-- C3 amended: the identity test returns true exactly when the handle is
a valid non-null window and either the owning process's executable name
is non-empty and equals the target name case-insensitively, or the
(possibly truncated) window title contains "Minecraft" — the title
fallback applies whenever the executable-name test fails, including when
the process query succeeds with a non-matching name. -/
theorem C3_amended_characterization (env : Env) (hwnd : HWND) :
    IsMinecraftWindow env hwnd = true ↔
      hwnd ≠ 0 ∧ env.isWindow hwnd = true ∧
        ((GetProcessExeName env (env.pidOf hwnd) ≠ "" ∧
            wcsicmpEq (GetProcessExeName env (env.pidOf hwnd)) TARGET_EXE
              = true) ∨
          strContainsSub (readTitle env hwnd) "Minecraft" = true) := by
  by_cases h0 : hwnd = 0
  · simp [IsMinecraftWindow, h0]
  · cases hw : env.isWindow hwnd
    · simp [IsMinecraftWindow, h0, hw]
    · simp [IsMinecraftWindow, h0, hw]
